import Mathlib

/-!
Verification of the prometheus-ecoflow-exporter core (src/main.go).

The Go program is shallowly embedded:

* numeric gauge values are modelled as rationals (`Rat`): the program only
  stores the decoded float64 values and the constants 0 and 1 in gauges and
  performs no arithmetic on them, so exact numbers are a faithful model;
* `time.Duration` is modelled as `Int` (nanosecond count);
* the HTTP stack and the JSON decoder are external libraries, modelled as an
  explicit environment (`HttpEnv`) that `getEcoflowApiData` consumes exactly
  the way the code consumes `http.NewRequest`, `httpClient.Do`, `io.ReadAll`
  and `json.Unmarshal`;
* `log.Fatal` (process termination) is modelled as the distinguished fetch
  result `FetchResult.fatal`;
* the per-device collection cycle `Collect` is a function from the fetch
  outcome and the pre-cycle gauge state to the post-cycle gauge state plus
  the list of emitted gauge values (the `defer` block of the Go code emits
  the current value of all five gauges on every exit path).
-/

/-- `type Ecoflow struct` (src/main.go lines 22-27): one configured device. -/
structure Ecoflow where
  Description : String
  SerialNumber : String
  AppKey : String
  SecretKey : String
deriving DecidableEq, Repr

/-- `type EcoflowApiData struct` (lines 46-51): the numeric telemetry payload. -/
structure EcoflowApiData where
  Soc : Rat
  RemainTime : Rat
  WattsOutSum : Rat
  WattsInSum : Rat
deriving DecidableEq, Repr

/-- `type EcoflowApi struct` (lines 40-44): the decoded JSON envelope. -/
structure EcoflowApi where
  Code : String
  Message : String
  Data : EcoflowApiData
deriving DecidableEq, Repr

/-- `func (params *Ecoflow) defaults()` (lines 53-57): if `Description` is
empty it is set to `SerialNumber`; nothing else is touched.  Modelled as a
pure function returning the updated record. -/
def defaults (params : Ecoflow) : Ecoflow :=
  if params.Description = "" then
    { params with Description := params.SerialNumber }
  else
    params

/-- Lookup in the working map.  The Go `map[string]Ecoflow` is modelled as
an association list whose keys are unique by construction; `mapLookup`
models Go map indexing `ecoflowList[sn]`. -/
def mapLookup (k : String) : List (String × Ecoflow) → Option Ecoflow
  | [] => none
  | (k2, v) :: rest => if k2 = k then some v else mapLookup k rest

/-- One iteration of the dedup loop of `main` (lines 230-234): insert the
device only when its `SerialNumber` key is not yet present (`!ok`), applying
`defaults` to the inserted copy `t` only. -/
def dedupStep (acc : List (String × Ecoflow)) (e : Ecoflow) : List (String × Ecoflow) :=
  if (mapLookup e.SerialNumber acc).isSome then
    acc
  else
    acc ++ [(e.SerialNumber, defaults e)]

/-- The dedup loop of `main` (lines 229-235): iterate over the configuration
list in order, building the working map; insertion order is kept in the
association list so that "first occurrence wins" is visible in the model. -/
def buildEcoflowList (ecoflowListConfig : List Ecoflow) : List (String × Ecoflow) :=
  ecoflowListConfig.foldl dedupStep []

/-- The first configuration entry carrying a given serial number, in input
order: the entry the dedup policy is supposed to retain. -/
def firstWithSerial (sn : String) : List Ecoflow → Option Ecoflow
  | [] => none
  | e :: rest => if e.SerialNumber = sn then some e else firstWithSerial sn rest

/-- Outcome of reading the response body: `io.ReadAll` either fails (line
163) or yields the raw bytes. -/
inductive ReadOutcome where
  | readError
  | bytes (b : List Nat)
deriving DecidableEq, Repr

/-- Outcome of `httpClient.Do` (line 150): either a transport error (network
failure, timeout expiry, connection failure) or a response carrying an HTTP
status code and a body. -/
inductive HttpOutcome where
  | transportError
  | response (status : Nat) (body : ReadOutcome)
deriving DecidableEq, Repr

/-- Result of one `getEcoflowApiData` call.  `fatal` models `log.Fatal`
(line 142), which terminates the whole process; `err` models returning a
non-nil Go error; `ok` models returning the decoded envelope with a nil
error. -/
inductive FetchResult where
  | fatal
  | err
  | ok (d : EcoflowApi)
deriving DecidableEq, Repr

/-- The external HTTP/JSON environment a fetch runs against:
`newRequestOk url` tells whether `http.NewRequest` succeeds for the built
URL (it fails only for malformed URLs, e.g. a serial number containing
control characters); `doRequest url timeout` is the network outcome of
`httpClient.Do` for a client whose `Timeout` field is `timeout`;
`decode body` is `json.Unmarshal` on the body bytes, `none` on a decode
error. -/
structure HttpEnv where
  newRequestOk : String → Bool
  doRequest : String → Int → HttpOutcome
  decode : List Nat → Option EcoflowApi

/-- The request URL built at line 135, templated with the serial number. -/
def apiUrl (ecoflow : Ecoflow) : String :=
  "https://api.ecoflow.com/iot-service/open/api/device/queryDeviceQuota?sn="
    ++ ecoflow.SerialNumber

/-- Go's `net/http` documents that a `Client.Timeout` of zero means no
timeout at all.  `getEcoflowApiData` copies its `checkTimeout` argument into
`Client.Timeout` unvalidated (lines 136-138), so this predicate says when
the resulting client runs without any timeout. -/
def clientTimeoutDisabled (checkTimeout : Int) : Bool :=
  checkTimeout == 0

/-- `func getEcoflowApiData` (lines 133-174): build the URL, construct the
request (`log.Fatal` on failure), perform exactly one attempt with the
client timeout set to `checkTimeout`, read and decode the body.  The HTTP
status code of the response is never examined. -/
def getEcoflowApiData (env : HttpEnv) (ecoflow : Ecoflow) (checkTimeout : Int) :
    FetchResult :=
  let url := apiUrl ecoflow
  if env.newRequestOk url then
    match env.doRequest url checkTimeout with
    | HttpOutcome.transportError => FetchResult.err
    | HttpOutcome.response _status bodyOutcome =>
      match bodyOutcome with
      | ReadOutcome.readError => FetchResult.err
      | ReadOutcome.bytes b =>
        match env.decode b with
        | none => FetchResult.err
        | some ecoflowData => FetchResult.ok ecoflowData
  else
    FetchResult.fatal

/-- The five gauge values owned by one `EcoflowExporter` (lines 33-37).
`prometheus.NewGauge` initialises every gauge to 0. -/
structure GaugeState where
  soc : Rat
  remaintime : Rat
  wattsoutsum : Rat
  wattsinsum : Rat
  checkError : Rat
deriving DecidableEq, Repr

/-- The deferred block of `Collect` (lines 111-118): emit the current value
of all five gauges, in source order soc, remaintime, wattsinsum,
wattsoutsum, checkError. -/
def emitGauges (s : GaugeState) : List Rat :=
  [s.soc, s.remaintime, s.wattsinsum, s.wattsoutsum, s.checkError]

/-- `func (ecoflow *EcoflowExporter) Collect` (lines 109-131), for one cycle
whose fetch outcome is `r` (`Except.error ()` models a non-nil Go error).
On `err != nil || "0" != res.Code` the check-error gauge is set to 1 and the
function returns early; otherwise the four telemetry gauges are overwritten
with the decoded values.  The deferred emission runs on every exit path, so
the result pairs the post-cycle state with `emitGauges` of that state. -/
def Collect (r : Except Unit EcoflowApi) (s : GaugeState) :
    GaugeState × List Rat :=
  let s2 :=
    match r with
    | Except.error _ => { s with checkError := 1 }
    | Except.ok res =>
      if "0" ≠ res.Code then
        { s with checkError := 1 }
      else
        { s with
            soc := res.Data.Soc
            remaintime := res.Data.RemainTime
            wattsinsum := res.Data.WattsInSum
            wattsoutsum := res.Data.WattsOutSum }
  (s2, emitGauges s2)

/-- Options passed to `prometheus.NewGauge`: metric name parts, help text
and the two constant labels built from the device. -/
structure GaugeOpts where
  ns : String
  name : String
  help : String
  constLabels : List (String × String)
deriving DecidableEq, Repr

/-- A registered gauge: its options plus its current value; a fresh gauge
starts at 0. -/
structure Gauge where
  opts : GaugeOpts
  value : Rat
deriving DecidableEq, Repr

/-- `prometheus.NewGauge`: a fresh gauge with value 0. -/
def NewGauge (opts : GaugeOpts) : Gauge :=
  { opts := opts, value := 0 }

/-- `type EcoflowExporter struct` (lines 29-38) as built by
`CreateExporters`. -/
structure EcoflowExporter where
  ecoflow : Ecoflow
  checkTimeout : Int
  checkError : Gauge
  soc : Gauge
  remaintime : Gauge
  wattsoutsum : Gauge
  wattsinsum : Gauge
deriving DecidableEq, Repr

/-- The constant labels attached to every gauge of a device (lines 68, 75,
82, 89, 96). -/
def deviceLabels (ecoflow : Ecoflow) : List (String × String) :=
  [("description", ecoflow.Description), ("sn", ecoflow.SerialNumber)]

/-- `func CreateExporters` (lines 59-99): builds the exporter with its five
fresh gauges and always returns it with a nil error. -/
def CreateExporters (ecoflow : Ecoflow) (checkTimeout : Int) :
    Except String EcoflowExporter :=
  Except.ok
    { ecoflow := ecoflow
      checkTimeout := checkTimeout
      soc := NewGauge
        { ns := "ecoflow", name := "soc", help := "State of charge"
          constLabels := deviceLabels ecoflow }
      remaintime := NewGauge
        { ns := "ecoflow", name := "remain_time", help := "Remain time"
          constLabels := deviceLabels ecoflow }
      wattsoutsum := NewGauge
        { ns := "ecoflow", name := "watts_out_sum", help := "Current wats output"
          constLabels := deviceLabels ecoflow }
      wattsinsum := NewGauge
        { ns := "ecoflow", name := "watts_in_sum", help := "Current wats input"
          constLabels := deviceLabels ecoflow }
      checkError := NewGauge
        { ns := "ecoflow", name := "check_error", help := "check error"
          constLabels := deviceLabels ecoflow } }

/-! ## Helper lemmas for the dedup loop -/

theorem mapLookup_append (k : String) (l1 l2 : List (String × Ecoflow)) :
    mapLookup k (l1 ++ l2) = (mapLookup k l1).or (mapLookup k l2) := by
  induction l1 with
  | nil => simp [mapLookup]
  | cons p t ih =>
    obtain ⟨k2, v⟩ := p
    by_cases hk : k2 = k <;> simp [mapLookup, hk, ih]

theorem mapLookup_eq_none_iff (k : String) (l : List (String × Ecoflow)) :
    mapLookup k l = none ↔ k ∉ l.map Prod.fst := by
  induction l with
  | nil => simp [mapLookup]
  | cons p t ih =>
    obtain ⟨k2, v⟩ := p
    by_cases hk : k2 = k
    · subst hk
      simp [mapLookup]
    · simp only [mapLookup, if_neg hk, List.map_cons, List.mem_cons]
      rw [ih]
      constructor
      · intro hn hor
        rcases hor with h1 | h2
        · exact hk h1.symm
        · exact hn h2
      · intro hn h2
        exact hn (Or.inr h2)

theorem dedup_foldl_some (cfg : List Ecoflow) (acc : List (String × Ecoflow))
    (k : String) (v : Ecoflow) (h : mapLookup k acc = some v) :
    mapLookup k (cfg.foldl dedupStep acc) = some v := by
  induction cfg generalizing acc with
  | nil => exact h
  | cons e rest ih =>
    simp only [List.foldl_cons]
    apply ih
    unfold dedupStep
    split
    · exact h
    · rw [mapLookup_append, h]
      rfl

theorem dedup_foldl_none (cfg : List Ecoflow) (acc : List (String × Ecoflow))
    (k : String) (h : mapLookup k acc = none) :
    mapLookup k (cfg.foldl dedupStep acc) = (firstWithSerial k cfg).map defaults := by
  induction cfg generalizing acc with
  | nil => simpa [firstWithSerial] using h
  | cons e rest ih =>
    simp only [List.foldl_cons]
    by_cases he : e.SerialNumber = k
    · have hnone : mapLookup e.SerialNumber acc = none := by rw [he]; exact h
      have hstep : dedupStep acc e = acc ++ [(e.SerialNumber, defaults e)] := by
        unfold dedupStep
        rw [hnone]
        rfl
      have hsome : mapLookup k (acc ++ [(e.SerialNumber, defaults e)]) =
          some (defaults e) := by
        rw [mapLookup_append, h]
        simp [mapLookup, he]
      rw [hstep, dedup_foldl_some rest _ k (defaults e) hsome]
      simp [firstWithSerial, he]
    · have hstep2 : mapLookup k (dedupStep acc e) = none := by
        unfold dedupStep
        split
        · exact h
        · rw [mapLookup_append, h]
          simp [mapLookup, he]
      rw [ih _ hstep2]
      simp [firstWithSerial, he]

theorem dedup_foldl_nodup (cfg : List Ecoflow) (acc : List (String × Ecoflow))
    (h : (acc.map Prod.fst).Nodup) :
    ((cfg.foldl dedupStep acc).map Prod.fst).Nodup := by
  induction cfg generalizing acc with
  | nil => exact h
  | cons e rest ih =>
    simp only [List.foldl_cons]
    apply ih
    unfold dedupStep
    split
    · exact h
    · rename_i hsome
      have hnone : mapLookup e.SerialNumber acc = none := by
        cases hc : mapLookup e.SerialNumber acc with
        | none => rfl
        | some v => rw [hc] at hsome; simp at hsome
      have hnotin : e.SerialNumber ∉ acc.map Prod.fst :=
        (mapLookup_eq_none_iff _ _).mp hnone
      rw [List.map_append]
      simp [List.nodup_append, h, hnotin]

/-! ## Claim theorems -/

/-- C4: for every input configuration list, possibly containing duplicate
serial numbers, the working set built by the dedup loop has pairwise
distinct serial-number keys; a key is present exactly when the serial
number occurs in the input; and the retained entry for a serial number is
the first occurrence of that serial number in input order, with `defaults`
applied to the retained entry only. -/
theorem buildEcoflowList_dedup (cfg : List Ecoflow) (sn : String) :
    ((buildEcoflowList cfg).map Prod.fst).Nodup ∧
    mapLookup sn (buildEcoflowList cfg) = (firstWithSerial sn cfg).map defaults ∧
    (sn ∈ (buildEcoflowList cfg).map Prod.fst ↔ (firstWithSerial sn cfg).isSome) := by
  have hb : buildEcoflowList cfg = cfg.foldl dedupStep [] := rfl
  have hlk : mapLookup sn (buildEcoflowList cfg) =
      (firstWithSerial sn cfg).map defaults := by
    rw [hb]
    exact dedup_foldl_none cfg [] sn rfl
  refine ⟨?_, hlk, ?_⟩
  · rw [hb]
    exact dedup_foldl_nodup cfg [] (by simp)
  · constructor
    · intro hmem
      cases hf : firstWithSerial sn cfg with
      | none =>
        exfalso
        rw [hf] at hlk
        simp only [Option.map_none'] at hlk
        exact (mapLookup_eq_none_iff sn (buildEcoflowList cfg)).mp hlk hmem
      | some e => rfl
    · intro hsome
      cases hf : firstWithSerial sn cfg with
      | none =>
        rw [hf] at hsome
        simp at hsome
      | some e =>
        by_contra hnot
        have hn := (mapLookup_eq_none_iff sn (buildEcoflowList cfg)).mpr hnot
        rw [hlk, hf] at hn
        simp at hn

/-- C5: `defaults` sets `Description` to `SerialNumber` exactly when
`Description` is the empty string and leaves it unchanged otherwise; it
never fails and modifies none of the other fields. -/
theorem defaults_label_policy (params : Ecoflow) :
    (defaults params).Description =
      (if params.Description = "" then params.SerialNumber else params.Description) ∧
    (defaults params).SerialNumber = params.SerialNumber ∧
    (defaults params).AppKey = params.AppKey ∧
    (defaults params).SecretKey = params.SecretKey := by
  unfold defaults
  by_cases h : params.Description = "" <;> simp [h]

/-- C10: `CreateExporters` always returns the freshly built exporter with a
nil error: the error result is never non-nil, for every device
configuration and every timeout. -/
theorem CreateExporters_never_fails (ecoflow : Ecoflow) (checkTimeout : Int) :
    ∃ exporter, CreateExporters ecoflow checkTimeout = Except.ok exporter :=
  ⟨_, rfl⟩

/-- C2: in every collection cycle whose fetch outcome is an error or whose
decoded status code is not the success sentinel "0", the post-cycle state
sets the check-error gauge to 1 and leaves the four telemetry gauges at
their pre-cycle values. -/
theorem Collect_failure_sets_error_keeps_telemetry
    (r : Except Unit EcoflowApi) (s : GaugeState)
    (h : ∀ res, r = Except.ok res → res.Code ≠ "0") :
    (Collect r s).1 = { s with checkError := 1 } := by
  cases r with
  | error e => rfl
  | ok res =>
    have hc : "0" ≠ res.Code := fun hh => h res rfl hh.symm
    simp only [Collect]
    rw [if_pos hc]

/-- Witness for C2: a transport-error cycle starting from gauges
(55, 120, 30, 0, 0) ends with check-error 1 and the telemetry unchanged. -/
theorem Collect_failure_sets_error_keeps_telemetry_witness :
    (Collect (Except.error ())
        { soc := 55, remaintime := 120, wattsoutsum := 30,
          wattsinsum := 0, checkError := 0 }).1 =
      { soc := 55, remaintime := 120, wattsoutsum := 30,
        wattsinsum := 0, checkError := 1 } :=
  Collect_failure_sets_error_keeps_telemetry (Except.error ())
    { soc := 55, remaintime := 120, wattsoutsum := 30,
      wattsinsum := 0, checkError := 0 }
    (fun _ hh => Except.noConfusion hh)

/-- C1 (divergence witness): a successful cycle (status "0") that starts
from a state whose check-error gauge is 1 (set by an earlier failed cycle)
overwrites the four telemetry gauges with the fresh values but leaves the
check-error gauge at 1: the success branch of `Collect` (lines 127-130)
never resets the check-error gauge to 0. -/
theorem Collect_success_keeps_stale_checkError :
    (Collect
        (Except.ok
          { Code := "0", Message := ""
            Data := { Soc := 55, RemainTime := 120, WattsOutSum := 30,
                      WattsInSum := 0 } })
        { soc := 7, remaintime := 8, wattsoutsum := 9,
          wattsinsum := 10, checkError := 1 }).1 =
      { soc := 55, remaintime := 120, wattsoutsum := 30,
        wattsinsum := 0, checkError := 1 } := by
  decide

/-- C8: every collection cycle, whatever the fetch outcome (failure branch
included), emits exactly the five post-cycle gauge values, in the source
order soc, remaintime, wattsinsum, wattsoutsum, checkError: the deferred
emission runs on every exit path of `Collect`. -/
theorem Collect_emits_all_five_gauges (r : Except Unit EcoflowApi) (s : GaugeState) :
    (Collect r s).2 =
      [(Collect r s).1.soc, (Collect r s).1.remaintime, (Collect r s).1.wattsinsum,
       (Collect r s).1.wattsoutsum, (Collect r s).1.checkError] ∧
    (Collect r s).2.length = 5 := by
  cases r with
  | error e => exact ⟨rfl, rfl⟩
  | ok res =>
    by_cases h : "0" ≠ res.Code
    · simp [Collect, emitGauges, if_pos h]
    · simp [Collect, emitGauges, if_neg h]

/-! ## Concrete fixtures for the fetch claims -/

/-- A well-formed device configuration. -/
def deviceA : Ecoflow :=
  { Description := "office", SerialNumber := "R331ZEB4Z001", AppKey := "app",
    SecretKey := "sec" }

/-- A second well-formed device configuration. -/
def deviceB : Ecoflow :=
  { Description := "garage", SerialNumber := "R331ZEB4Z002", AppKey := "app2",
    SecretKey := "sec2" }

/-- A device whose serial number contains a control character, so the
templated URL is malformed and `http.NewRequest` fails on it. -/
def deviceBadSerial : Ecoflow :=
  { Description := "bad", SerialNumber := "SN\x01", AppKey := "a", SecretKey := "s" }

/-- A decoded envelope with a non-success application status code. -/
def envelopeA : EcoflowApi :=
  { Code := "1", Message := "error"
    Data := { Soc := 10, RemainTime := 0, WattsOutSum := 0, WattsInSum := 0 } }

/-- A decoded envelope with the success status code "0". -/
def envelopeB : EcoflowApi :=
  { Code := "0", Message := ""
    Data := { Soc := 55, RemainTime := 120, WattsOutSum := 30, WattsInSum := 0 } }

/-- An environment in which the upstream always answers with HTTP status
500 and a body that decodes. -/
def envNon2xx : HttpEnv :=
  { newRequestOk := fun _ => true
    doRequest := fun _ _ => HttpOutcome.response 500 (ReadOutcome.bytes [123, 125])
    decode := fun _ => some envelopeA }

/-- An environment in which request construction fails for every URL. -/
def envRejectRequest : HttpEnv :=
  { newRequestOk := fun _ => false
    doRequest := fun _ _ => HttpOutcome.transportError
    decode := fun _ => none }

/-- An environment in which every request fails with a transport error. -/
def envTransportFail : HttpEnv :=
  { newRequestOk := fun _ => true
    doRequest := fun _ _ => HttpOutcome.transportError
    decode := fun _ => none }

/-- An environment whose network layer answers exactly when the HTTP client
it is handed has its timeout disabled (`Timeout` field 0, i.e. no timeout),
and times out otherwise: it records which client timeout value the fetch
actually used. -/
def envZeroTimeout : HttpEnv :=
  { newRequestOk := fun _ => true
    doRequest := fun _ t =>
      if clientTimeoutDisabled t then
        HttpOutcome.response 200 (ReadOutcome.bytes [48])
      else
        HttpOutcome.transportError
    decode := fun _ => some envelopeB }

/-- C3 (amended): when request construction succeeds, `getEcoflowApiData`
returns an error exactly when the single attempt fails in transport, the
body read fails, or the JSON decode fails; in every other case — the HTTP
status code, 2xx or not, is never examined — it returns the decoded
envelope unmodified, regardless of its embedded status code. -/
theorem getEcoflowApiData_error_characterization (env : HttpEnv)
    (ecoflow : Ecoflow) (checkTimeout : Int)
    (h : env.newRequestOk (apiUrl ecoflow) = true) :
    (getEcoflowApiData env ecoflow checkTimeout = FetchResult.err ↔
      (env.doRequest (apiUrl ecoflow) checkTimeout = HttpOutcome.transportError ∨
       (∃ st, env.doRequest (apiUrl ecoflow) checkTimeout =
          HttpOutcome.response st ReadOutcome.readError) ∨
       (∃ st b, env.doRequest (apiUrl ecoflow) checkTimeout =
          HttpOutcome.response st (ReadOutcome.bytes b) ∧ env.decode b = none))) ∧
    (∀ st b d,
      env.doRequest (apiUrl ecoflow) checkTimeout =
          HttpOutcome.response st (ReadOutcome.bytes b) →
        env.decode b = some d →
        getEcoflowApiData env ecoflow checkTimeout = FetchResult.ok d) := by
  constructor
  · cases hd : env.doRequest (apiUrl ecoflow) checkTimeout with
    | transportError => simp [getEcoflowApiData, h, hd]
    | response st body =>
      cases body with
      | readError => simp [getEcoflowApiData, h, hd]
      | bytes b =>
        cases hdec : env.decode b with
        | none =>
          simp only [getEcoflowApiData, h, hd, hdec, if_true]
          constructor
          · intro _
            exact Or.inr (Or.inr ⟨st, b, rfl, hdec⟩)
          · intro _
            trivial
        | some d => simp [getEcoflowApiData, h, hd, hdec]
  · intro st b d hd hdec
    simp [getEcoflowApiData, h, hd, hdec]

/-- Witness for C3 (amended): a concrete fetch whose attempt yields a
decodable body is returned as the decoded envelope. -/
theorem getEcoflowApiData_error_characterization_witness :
    getEcoflowApiData envNon2xx deviceA 5 = FetchResult.ok envelopeA :=
  (getEcoflowApiData_error_characterization envNon2xx deviceA 5 rfl).2
    500 [123, 125] envelopeA rfl rfl

/-- C3 counterexample: at this concrete input the upstream answers with
HTTP status 500 — one of the failure modes the claim says must surface as
an error — yet `getEcoflowApiData` returns the decoded envelope as a
success: the code never examines the HTTP status code of the response. -/
theorem getEcoflowApiData_non2xx_not_error :
    getEcoflowApiData envNon2xx deviceA 5 = FetchResult.ok envelopeA ∧
    getEcoflowApiData envNon2xx deviceA 5 ≠ FetchResult.err := by
  exact ⟨rfl, by decide⟩

/-- C7 counterexample: when `http.NewRequest` fails (here because the
serial number contains a control character, making the templated URL
malformed), the code calls `log.Fatal` (line 142) and the process
terminates — a fetch outcome the claim says must never be fatal. -/
theorem getEcoflowApiData_fatal_on_request_construction_failure :
    getEcoflowApiData envRejectRequest deviceBadSerial 5 = FetchResult.fatal := by
  rfl

/-- C7 (amended): whenever request construction succeeds, no fetch outcome
— network or connection failure, timeout expiry, body read failure, JSON
decode failure, or any response — terminates the process: the fetch always
returns an error value or a decoded envelope. -/
theorem getEcoflowApiData_no_fatal_when_request_ok (env : HttpEnv)
    (ecoflow : Ecoflow) (checkTimeout : Int)
    (h : env.newRequestOk (apiUrl ecoflow) = true) :
    getEcoflowApiData env ecoflow checkTimeout ≠ FetchResult.fatal := by
  cases hd : env.doRequest (apiUrl ecoflow) checkTimeout with
  | transportError => simp [getEcoflowApiData, h, hd]
  | response st body =>
    cases body with
    | readError => simp [getEcoflowApiData, h, hd]
    | bytes b =>
      cases hdec : env.decode b with
      | none => simp [getEcoflowApiData, h, hd, hdec]
      | some d => simp [getEcoflowApiData, h, hd, hdec]

/-- Witness for C7 (amended): a concrete transport-failure fetch is not
fatal. -/
theorem getEcoflowApiData_no_fatal_when_request_ok_witness :
    getEcoflowApiData envTransportFail deviceB 5 ≠ FetchResult.fatal :=
  getEcoflowApiData_no_fatal_when_request_ok envTransportFail deviceB 5 rfl

/-- C6 (divergence witness): called with a zero timeout,
`getEcoflowApiData` does not reject the call as a caller error; it copies 0
into the HTTP client's `Timeout` field — which Go's `net/http` documents as
"no timeout" — and performs the request with that client: against a network
layer that answers exactly when handed a disabled client timeout, the fetch
completes successfully. -/
theorem getEcoflowApiData_zero_timeout_performs_request :
    getEcoflowApiData envZeroTimeout deviceB 0 = FetchResult.ok envelopeB ∧
    clientTimeoutDisabled 0 = true := by
  exact ⟨rfl, rfl⟩
